import Mathlib

/-!
Verification of the ESP32 3.5" TFT weather station firmware
(single sketch file plus `All_Settings.h`).

The firmware is shallowly embedded: the layout engine, the change
detector, the render orchestrator's commit logic and the small pure
classifiers are translated into executable Lean definitions.

Modelling conventions:
* C `float`/`double` values are modelled as `ℚ`; all tolerance
  comparisons in the sketch (`> 0.5`, `> 0.1`, `> 0.01`) are exact at
  the magnitudes the claims exercise, so rationals are faithful.
* C `uint16_t` arithmetic is modelled as `ℕ`; wherever the sketch
  stores the result of a subtraction into a `uint16_t` (and the value
  could in principle be negative), the wrap-around is modelled
  explicitly by `u16` (reduction of the signed value mod 2^16).
* Arrays of the `OW_forecast` struct (from the external OpenWeather
  library) are modelled as total functions `ℕ → _`; the library
  allocates `MAX_DAYS * 8 = 40` three-hour slots.
* External collaborators (TFT driver, HTTP, JSON, NTP, `moon_phase`)
  are out of scope; values they produce (the parsed snapshot, the moon
  phase icon, formatted clock strings) are inputs of the model.
-/

namespace WeatherStation

/-! ## Display constants (sketch lines 27-37) -/

def SMALL_FONT_HEIGHT : ℕ := 18
def LARGE_FONT_HEIGHT : ℕ := 40
def TEXT_LINE_HEIGHT : ℕ := 20
def ICON_SIZE_LARGE : ℕ := 100
def ICON_SIZE_SMALL : ℕ := 64
def ICON_SIZE_TINY : ℕ := 48
def UV_DISPLAY_HEIGHT : ℕ := 30
def UV_MARGIN_BOTTOM : ℕ := 8

/-- MAX_DAYS comes from the external OpenWeather library headers: the
forecast arrays hold `MAX_DAYS * 8 = 40` three-hour samples. -/
def MAX_DAYS : ℕ := 5

/-- Reduction of a (possibly negative) C `int` value into a `uint16_t`
variable: the value mod 2^16.  `Int.emod` with a positive modulus is
always in `[0, 65536)`, matching the C conversion. -/
def u16 (x : ℤ) : ℕ := (x % 65536).toNat

/-! ## Geometry engine: `initScreenDimensions` (lines 149-169),
`initLayoutBounds` (lines 191-226), `verifyNoOverlap` (lines 246-266) -/

structure ScreenDims where
  halfW : ℕ
  halfH : ℕ
  w1_50 : ℕ
  w3_50 : ℕ
  w21_50 : ℕ
  w24_50 : ℕ
  w26_50 : ℕ
  w47_100 : ℕ
  w51_100 : ℕ
  h1_50 : ℕ
  h2_25 : ℕ
  h3_50 : ℕ
  h9_50 : ℕ
  h1_5 : ℕ
  h23_100 : ℕ
  h13_20 : ℕ
  statusTextY : ℕ
  uvDisplayY : ℕ

/-- `initScreenDimensions()`: every field is an integer-division
fraction of the screen width `W` / height `H` (both `uint16_t`).
`uvDisplayY = h13_20 - UV_DISPLAY_HEIGHT - UV_MARGIN_BOTTOM` is a
subtraction stored into a `uint16_t`, hence the `u16` wrap. -/
def initScreenDimensions (W H : ℕ) : ScreenDims :=
  { halfW := W / 2
    halfH := H / 2
    w1_50 := W / 50
    w3_50 := W * 3 / 50
    w21_50 := W * 21 / 50
    w24_50 := W * 24 / 50
    w26_50 := W * 26 / 50
    w47_100 := W * 47 / 100
    w51_100 := W * 51 / 100
    h1_50 := H / 50
    h2_25 := H * 2 / 25
    h3_50 := H * 3 / 50
    h9_50 := H * 9 / 50
    h1_5 := H / 5
    h23_100 := H * 23 / 100
    h13_20 := H * 13 / 20
    statusTextY := H * 2 / 3
    uvDisplayY := u16 ((H * 13 / 20 : ℤ) - UV_DISPLAY_HEIGHT - UV_MARGIN_BOTTOM) }

structure LayoutBounds where
  timeX : ℕ
  timeY : ℕ
  timeW : ℕ
  timeH : ℕ
  weatherX : ℕ
  weatherY : ℕ
  weatherW : ℕ
  weatherH : ℕ
  uvX : ℕ
  uvY : ℕ
  uvW : ℕ
  uvH : ℕ
  astronomyX : ℕ
  astronomyY : ℕ
  astronomyW : ℕ
  astronomyH : ℕ
  forecastX : ℕ
  forecastY : ℕ
  forecastW : ℕ
  forecastH : ℕ
  popGraphX : ℕ
  popGraphY : ℕ
  popGraphW : ℕ
  popGraphH : ℕ
  tempGraphX : ℕ
  tempGraphY : ℕ
  tempGraphW : ℕ
  tempGraphH : ℕ

/-- `initLayoutBounds()`: each region rectangle, exactly as computed in
the sketch from the cached `dims` fractions.  Fields assigned from a
subtraction go through `u16` (the sketch stores them in `uint16_t`). -/
def initLayoutBounds (W H : ℕ) (d : ScreenDims) : LayoutBounds :=
  let forecastH := d.h9_50 + H * 3 / 20 + 26
  let popGraphY := forecastH + 6
  { timeX := d.w1_50
    timeY := d.h1_50
    timeW := u16 ((d.halfW : ℤ) - d.w1_50)
    timeH := u16 ((d.h2_25 : ℤ) + LARGE_FONT_HEIGHT - d.h1_50)
    weatherX := 0
    weatherY := d.h1_5
    weatherW := d.halfW
    weatherH := u16 ((d.uvDisplayY : ℤ) - d.h1_5)
    uvX := 0
    uvY := d.uvDisplayY
    uvW := d.halfW
    uvH := UV_DISPLAY_HEIGHT
    astronomyX := ICON_SIZE_LARGE
    astronomyY := d.h1_5
    astronomyW := u16 ((d.halfW : ℤ) - ICON_SIZE_LARGE)
    astronomyH := u16 ((d.h13_20 : ℤ) - d.h1_5)
    forecastX := d.w26_50
    forecastY := 0
    forecastW := d.w24_50
    forecastH := forecastH
    popGraphX := d.w51_100
    popGraphY := popGraphY
    popGraphW := d.w24_50
    popGraphH := u16 ((d.h13_20 : ℤ) - popGraphY - 6)
    tempGraphX := 0
    tempGraphY := d.h13_20
    tempGraphW := W
    tempGraphH := u16 ((H : ℤ) - d.h13_20) }

/-- `verifyNoOverlap()`: the six adjacency checks of sketch lines
246-266 (the serial diagnostics have no effect on the result).  In C
the `uint16_t` operands are promoted to `int` before `+` and `<=`, so
plain `ℕ` comparison is exact. -/
def verifyNoOverlap (d : ScreenDims) (l : LayoutBounds) : Bool :=
  let timeWeatherOk := decide (l.timeY + l.timeH ≤ l.weatherY)
  let weatherUVOk := decide (l.weatherY + l.weatherH ≤ l.uvY)
  let uvTempGraphOk := decide (l.uvY + l.uvH ≤ l.tempGraphY)
  let forecastPopOk := decide (l.forecastY + l.forecastH ≤ l.popGraphY)
  let popTempOk := decide (l.popGraphY + l.popGraphH ≤ l.tempGraphY)
  let leftRightOk := decide (l.weatherX + l.weatherW ≤ d.halfW) &&
                     decide (d.halfW ≤ l.forecastX)
  timeWeatherOk && weatherUVOk && uvTempGraphOk &&
    forecastPopOk && popTempOk && leftRightOk

/-- The layout computed from screen size `(W, H)`, i.e.
`initScreenDimensions` followed by `initLayoutBounds` as in `setup()`. -/
def layoutOf (W H : ℕ) : LayoutBounds :=
  initLayoutBounds W H (initScreenDimensions W H)

/-- The full startup layout verification at screen size `(W, H)`. -/
def layoutVerifies (W H : ℕ) : Bool :=
  verifyNoOverlap (initScreenDimensions W H) (layoutOf W H)

/-! ## `clearArea` (lines 228-233) -/

/-- `clearArea(x, y, w, h)`: returns the rectangle actually passed to
`tft.fillRect`, or `none` when the guard returns early.  `screenWidth`
and `screenHeight` are the global display dimensions. -/
def clearArea (screenWidth screenHeight x y w h : ℕ) :
    Option (ℕ × ℕ × ℕ × ℕ) :=
  if screenWidth ≤ x ∨ screenHeight ≤ y then none
  else
    let w' := if screenWidth < x + w then screenWidth - x else w
    let h' := if screenHeight < y + h then screenHeight - y else h
    some (x, y, w', h')

/-! ## Startup outcome (`setup()`, lines 402-497)

`setup()` calls `verifyNoOverlap()` and only prints a serial message in
either branch (lines 429-433); execution continues regardless.  The
LittleFS mount check (lines 436-443) enters `while (true) delay(1000)`
on failure -- a terminal state -- and otherwise setup runs to completion
and the control loop `loop()` is entered. -/

inductive SetupOutcome where
  | halted
  | enterLoop
deriving DecidableEq

/-- Control-flow outcome of `setup()` as a function of the layout
verification result and the filesystem mount result.  The layout result
is only logged, so it does not influence the outcome. -/
def setupOutcome (layoutOk : Bool) (fsOk : Bool) : SetupOutcome :=
  match layoutOk, fsOk with
  | _, false => SetupOutcome.halted
  | _, true => SetupOutcome.enterLoop

/-! ## Claim C1 -/

/-- Claim C1 (code_bug evaluation): at the device's own landscape
resolution 480x320 (a 320x480 panel with `setRotation(1)`), the layout
check fails: `timeY + timeH = 6 + (25 + 40 - 6) = 65` exceeds
`weatherY = 64`, so `verifyNoOverlap` returns `false` -- the sketch
prints "LAYOUT OVERLAP DETECTED!" on its own target hardware,
contradicting the claim that every landscape size passes. -/
theorem layoutVerifies_fails_on_device :
    layoutVerifies 480 320 = false ∧
      ¬ ((layoutOf 480 320).timeY + (layoutOf 480 320).timeH ≤
          (layoutOf 480 320).weatherY) := by
  constructor
  · decide
  · decide

/-! ## Claim C9 -/

/-- Claim C9 counterexample: the claim says a detected layout overlap
halts startup, but with the overlap actually detected at the device's
own 480x320 size (so `layoutVerifies 480 320 = false`) and a healthy
filesystem, `setup()` still enters the control loop. -/
theorem setup_overlap_does_not_halt :
    layoutVerifies 480 320 = false ∧
      setupOutcome (layoutVerifies 480 320) true = SetupOutcome.enterLoop ∧
      SetupOutcome.enterLoop ≠ SetupOutcome.halted := by
  refine ⟨by decide, ?_, by decide⟩
  rfl

/-- Claim C9 amended: only the asset-store (LittleFS) mount failure is
startup-fatal -- it halts in the terminal diagnostic state for every
layout verdict; a layout overlap merely logs a diagnostic and startup
proceeds into the control loop. -/
theorem setup_halts_iff_fs_fails :
    (∀ layoutOk : Bool, setupOutcome layoutOk false = SetupOutcome.halted) ∧
    (∀ layoutOk : Bool, setupOutcome layoutOk true = SetupOutcome.enterLoop) := by
  exact ⟨fun _ => rfl, fun _ => rfl⟩

/-! ## Claim C10 -/

/-- Claim C10: `clearArea` never touches pixels outside the screen: it
is a no-op when `x >= screenWidth` or `y >= screenHeight`, and
otherwise the filled rectangle keeps its origin and is clipped so that
it ends at or before the right and bottom screen edges. -/
theorem clearArea_clips (sw sh x y w h : ℕ) :
    ((sw ≤ x ∨ sh ≤ y) → clearArea sw sh x y w h = none) ∧
    (∀ x0 y0 w0 h0, clearArea sw sh x y w h = some (x0, y0, w0, h0) →
      x0 = x ∧ y0 = y ∧ x0 + w0 ≤ sw ∧ y0 + h0 ≤ sh) := by
  constructor
  · intro hg
    simp [clearArea, hg]
  · intro x0 y0 w0 h0 hsome
    unfold clearArea at hsome
    by_cases hg : sw ≤ x ∨ sh ≤ y
    · simp [hg] at hsome
    · simp only [hg, if_false] at hsome
      push_neg at hg
      obtain ⟨hx, hy⟩ := hg
      obtain ⟨hx0, hy0, hw0, hh0⟩ : x = x0 ∧ y = y0 ∧
          (if sw < x + w then sw - x else w) = w0 ∧
          (if sh < y + h then sh - y else h) = h0 := by
        simpa using hsome
      refine ⟨hx0.symm, hy0.symm, ?_, ?_⟩
      · subst hx0
        rw [← hw0]
        split <;> omega
      · subst hy0
        rw [← hh0]
        split <;> omega

/-- Claim C10 witness: at the device resolution, a request starting
beyond the right edge is a no-op, and an oversized in-range request is
clipped to end exactly at the screen edges. -/
theorem clearArea_clips_witness :
    ((480 ≤ 500 ∨ 320 ≤ 300) ∧ clearArea 480 320 500 300 200 100 = none) ∧
      (clearArea 480 320 400 300 200 100 = some (400, 300, 80, 20) ∧
        400 + 80 ≤ 480 ∧ 300 + 20 ≤ 320) :=
  ⟨⟨Or.inl (by decide),
      (clearArea_clips 480 320 500 300 200 100).1 (Or.inl (by decide))⟩,
    by decide,
    ((clearArea_clips 480 320 400 300 200 100).2 400 300 80 20 (by decide)).2.2.1,
    ((clearArea_clips 480 320 400 300 200 100).2 400 300 80 20 (by decide)).2.2.2⟩

/-! ## Data model: `OW_forecast`, `PreviousValues` (lines 77-95),
`UVData` (lines 46-53) -/

/-- The slice of the external `OW_forecast` struct the sketch reads.
The library's arrays hold `MAX_DAYS * 8 = 40` slots; they are modelled
as total functions on `ℕ`. -/
structure OWForecast where
  temp : ℕ → ℚ
  temp_min : ℕ → ℚ
  temp_max : ℕ → ℚ
  id : ℕ → ℕ
  pop : ℕ → ℚ
  wind_speed : ℕ → ℚ
  wind_deg : ℕ → ℕ
  clouds_all : ℕ → ℕ
  humidity : ℕ → ℕ
  sunrise : ℤ
  sunset : ℤ
  dt : ℕ → ℤ
  dt_txt : ℕ → String

/-- The `prevVals` store (struct `PreviousValues`).
`forecastTemps i` is the pair `(forecastTemps[i][0], forecastTemps[i][1])`,
i.e. `(committed day min, committed day max)`. -/
structure PreviousValues where
  temp : ℚ
  weatherId : ℕ
  windSpeed : ℚ
  windDeg : ℕ
  clouds : ℕ
  humidity : ℕ
  sunrise : ℤ
  sunset : ℤ
  moonPhaseIcon : ℕ
  forecastTemps : ℕ → ℚ × ℚ
  forecastIds : ℕ → ℕ
  pop : ℕ → ℚ
  hourlyTemps : ℕ → ℚ
  lastTimeStr : String
  lastDateStr : String
  lastUV : ℚ
  lastUVTime : String

/-- `initPreviousValues()` (lines 171-189): the "never rendered"
sentinels; the `memset` calls zero the arrays and empty the strings. -/
def initPreviousValues : PreviousValues :=
  { temp := -9999
    weatherId := 0
    windSpeed := -9999
    windDeg := 9999
    clouds := 255
    humidity := 255
    sunrise := 0
    sunset := 0
    moonPhaseIcon := 255
    forecastTemps := fun _ => (0, 0)
    forecastIds := fun _ => 0
    pop := fun _ => 0
    hourlyTemps := fun _ => 0
    lastTimeStr := ""
    lastDateStr := ""
    lastUV := -1
    lastUVTime := "" }

/-- The `uvData` global (struct `UVData`). -/
structure UVData where
  current_uv : ℚ
  max_uv : ℚ
  max_uv_time : ℤ
  valid : Bool
  lastUpdate : ℕ
  max_time_str : String

/-! ## Validity and change detection (lines 235-238, 299-302, 538-603) -/

/-- `isForecastDataValid()`: non-null snapshot whose current
temperature is plausible. -/
def isForecastDataValid (ofc : Option OWForecast) : Bool :=
  match ofc with
  | none => false
  | some f => decide ((-100 : ℚ) < f.temp 0) && decide (f.temp 0 < 100)

/-- `hasWeatherChanged()` (lines 538-542).  Note the sketch compares
the temperature with exact `!=`, not with the 0.5 tolerance. -/
def hasWeatherChanged (pv : PreviousValues) (ofc : Option OWForecast) : Bool :=
  match ofc with
  | none => false
  | some f =>
    if !isForecastDataValid ofc then false
    else decide (pv.temp ≠ f.temp 0) || decide (pv.weatherId ≠ f.id 0)

/-- Arduino `String.substring(8, 10)`: the characters at positions 8
and 9 (the day-of-month digits of an OpenWeather `dt_txt` stamp). -/
def substr8_10 (s : String) : String :=
  String.mk ((s.data.drop 8).take 2)

/-- `getNextDayIndex()` (lines 1199-1209): first of the 9 leading
samples dated differently from sample 0; 0 if none differ. -/
def getNextDayIndex (ofc : Option OWForecast) : ℕ :=
  match ofc with
  | none => 0
  | some f =>
    match (List.range 9).find?
        (fun index => substr8_10 (f.dt_txt index) != substr8_10 (f.dt_txt 0)) with
    | some index => index
    | none => 0

/-- The intra-day min/max scan shared by `hasForecastChanged` and
`drawForecast`: 8 samples from `idx`, stopping at the array bound,
folding `tmax` from -9999 and `tmin` from 9999.  Returns `(tmax, tmin)`. -/
def scanMinMax (f : OWForecast) (idx : ℕ) : ℚ × ℚ :=
  ((List.range 8).takeWhile (fun j => decide (idx + j < MAX_DAYS * 8))).foldl
    (fun p j => (max p.1 (f.temp_max (idx + j)), min p.2 (f.temp_min (idx + j))))
    (-9999, 9999)

/-- `hasForecastChanged()` (lines 544-570). -/
def hasForecastChanged (pv : PreviousValues) (ofc : Option OWForecast) : Bool :=
  match ofc with
  | none => false
  | some f =>
    if !isForecastDataValid ofc then false
    else
      let dayIndex := getNextDayIndex ofc
      (List.range 4).any (fun i =>
        let idx := dayIndex + i * 8
        if MAX_DAYS * 8 ≤ idx then false
        else
          let mm := scanMinMax f idx
          decide (|(pv.forecastTemps i).1 - mm.2| > 1/2) ||
          decide (|(pv.forecastTemps i).2 - mm.1| > 1/2) ||
          decide (pv.forecastIds i ≠ f.id (idx + 4)))

/-- `hasAstronomyChanged()` (lines 572-587).  The moon phase icon is
computed by the external `moon_phase` routine from the snapshot's local
time; it enters the model as the input `icon`. -/
def hasAstronomyChanged (pv : PreviousValues) (ofc : Option OWForecast)
    (icon : ℕ) : Bool :=
  match ofc with
  | none => false
  | some f =>
    if !isForecastDataValid ofc then false
    else
      decide (|pv.windSpeed - f.wind_speed 0| > 1/2) ||
      decide (pv.windDeg ≠ f.wind_deg 0) ||
      decide (pv.clouds ≠ f.clouds_all 0) ||
      decide (pv.humidity ≠ f.humidity 0) ||
      decide (pv.sunrise ≠ f.sunrise) ||
      decide (pv.sunset ≠ f.sunset) ||
      decide (pv.moonPhaseIcon ≠ icon)

/-- `hasPopChanged()` (lines 589-595). -/
def hasPopChanged (pv : PreviousValues) (ofc : Option OWForecast) : Bool :=
  match ofc with
  | none => false
  | some f =>
    if !isForecastDataValid ofc then false
    else (List.range 8).any (fun i => decide (|pv.pop i - f.pop i| > 1/100))

/-- `hasHourlyTempChanged()` (lines 597-603). -/
def hasHourlyTempChanged (pv : PreviousValues) (ofc : Option OWForecast) : Bool :=
  match ofc with
  | none => false
  | some f =>
    if !isForecastDataValid ofc then false
    else (List.range 9).any (fun i => decide (|pv.hourlyTemps i - f.temp i| > 1/2))

/-- `hasUVChanged()` (lines 299-302). -/
def hasUVChanged (pv : PreviousValues) (uv : UVData) : Bool :=
  if !uv.valid then false
  else decide (|pv.lastUV - uv.max_uv| > 1/10) ||
       decide (pv.lastUVTime ≠ uv.max_time_str)

/-- The UV redraw decision of `loop()` (lines 514-525): after
`updateUVData()` runs, `drawUVIndex()` is called iff
`firstRun || hasUVChanged() || (prevValid != uvData.valid)`. -/
def uvLoopRedraw (firstRun : Bool) (pv : PreviousValues)
    (prevValid : Bool) (uv : UVData) : Bool :=
  firstRun || hasUVChanged pv uv || decide (prevValid ≠ uv.valid)

/-! ## UV classifiers (lines 281-297) and the TFT_eSPI palette values -/

def TFT_WHITE : ℕ := 0xFFFF
def TFT_GREEN : ℕ := 0x07E0
def TFT_YELLOW : ℕ := 0xFFE0
def TFT_ORANGE : ℕ := 0xFDA0
def TFT_RED : ℕ := 0xF800
def TFT_VIOLET : ℕ := 0x915C

/-- `getUVColor()` (lines 281-288). -/
def getUVColor (uvIndex : ℚ) : ℕ :=
  if uvIndex < 0 then TFT_WHITE
  else if uvIndex ≤ 2 then TFT_GREEN
  else if uvIndex ≤ 5 then TFT_YELLOW
  else if uvIndex ≤ 7 then TFT_ORANGE
  else if uvIndex ≤ 10 then TFT_RED
  else TFT_VIOLET

/-- `getUVCategory()` (lines 290-297). -/
def getUVCategory (uvIndex : ℚ) : String :=
  if uvIndex < 0 then "N/A"
  else if uvIndex ≤ 2 then "LOW"
  else if uvIndex ≤ 5 then "MODERATE"
  else if uvIndex ≤ 7 then "HIGH"
  else if uvIndex ≤ 10 then "VERY HIGH"
  else "EXTREME"

/-! ## Claim C6 -/

/-- Claim C6: the UV classifiers partition the axis exactly as claimed,
with every lower comparison inclusive, plus the claim's boundary
instances. -/
theorem getUVCategory_bands :
    (∀ uv : ℚ,
      (uv < 0 → getUVCategory uv = "N/A" ∧ getUVColor uv = TFT_WHITE) ∧
      (0 ≤ uv → uv ≤ 2 → getUVCategory uv = "LOW" ∧ getUVColor uv = TFT_GREEN) ∧
      (2 < uv → uv ≤ 5 →
        getUVCategory uv = "MODERATE" ∧ getUVColor uv = TFT_YELLOW) ∧
      (5 < uv → uv ≤ 7 → getUVCategory uv = "HIGH" ∧ getUVColor uv = TFT_ORANGE) ∧
      (7 < uv → uv ≤ 10 →
        getUVCategory uv = "VERY HIGH" ∧ getUVColor uv = TFT_RED) ∧
      (10 < uv → getUVCategory uv = "EXTREME" ∧ getUVColor uv = TFT_VIOLET)) ∧
    getUVCategory 2 = "LOW" ∧ getUVCategory (201/100) = "MODERATE" ∧
    getUVCategory 10 = "VERY HIGH" ∧ getUVCategory (1001/100) = "EXTREME" ∧
    getUVCategory (-1) = "N/A" := by
  refine ⟨fun uv => ?_, by with_unfolding_all decide, by with_unfolding_all decide,
    by with_unfolding_all decide, by with_unfolding_all decide,
    by with_unfolding_all decide⟩
  unfold getUVCategory getUVColor
  refine ⟨fun h => ?_, fun h0 h2 => ?_, fun h2 h5 => ?_,
    fun h5 h7 => ?_, fun h7 h10 => ?_, fun h10 => ?_⟩ <;>
    split_ifs <;> first | exact ⟨rfl, rfl⟩ | linarith

/-- Claim C6 witness: the band statements applied at concrete points of
each band. -/
theorem getUVCategory_bands_witness :
    (getUVCategory (3/2) = "LOW" ∧ getUVColor (3/2) = TFT_GREEN) ∧
      (getUVCategory 4 = "MODERATE" ∧ getUVColor 4 = TFT_YELLOW) ∧
      (getUVCategory 6 = "HIGH" ∧ getUVColor 6 = TFT_ORANGE) ∧
      (getUVCategory 8 = "VERY HIGH" ∧ getUVColor 8 = TFT_RED) ∧
      (getUVCategory 11 = "EXTREME" ∧ getUVColor 11 = TFT_VIOLET) ∧
      (getUVCategory (-2) = "N/A" ∧ getUVColor (-2) = TFT_WHITE) :=
  ⟨(getUVCategory_bands.1 (3/2)).2.1 (by with_unfolding_all decide)
      (by with_unfolding_all decide),
    (getUVCategory_bands.1 4).2.2.1 (by with_unfolding_all decide)
      (by with_unfolding_all decide),
    (getUVCategory_bands.1 6).2.2.2.1 (by with_unfolding_all decide)
      (by with_unfolding_all decide),
    (getUVCategory_bands.1 8).2.2.2.2.1 (by with_unfolding_all decide)
      (by with_unfolding_all decide),
    (getUVCategory_bands.1 11).2.2.2.2.2 (by with_unfolding_all decide),
    (getUVCategory_bands.1 (-2)).1 (by with_unfolding_all decide)⟩

/-! ## Claim C4 -/

/-- A current-conditions snapshot whose temperature moved by exactly
0.3 degrees from the committed 20 degrees, with an unchanged condition
code 800. -/
def forecastC4 : OWForecast :=
  { temp := fun _ => 203/10
    temp_min := fun _ => 0
    temp_max := fun _ => 0
    id := fun _ => 800
    pop := fun _ => 0
    wind_speed := fun _ => 0
    wind_deg := fun _ => 0
    clouds_all := fun _ => 0
    humidity := fun _ => 0
    sunrise := 0
    sunset := 0
    dt := fun _ => 0
    dt_txt := fun _ => "" }

def prevValsC4 : PreviousValues :=
  { initPreviousValues with temp := 20, weatherId := 800 }

/-- Claim C4 counterexample: a 0.3-degree temperature change with an
unchanged condition code is reported DIRTY by `hasWeatherChanged` (the
sketch compares with exact `!=`), while the claim says such a snapshot
is clean under the 0.5 tolerance. -/
theorem hasWeatherChanged_no_tolerance :
    hasWeatherChanged prevValsC4 (some forecastC4) = true ∧
      |prevValsC4.temp - forecastC4.temp 0| ≤ 1/2 ∧
      prevValsC4.weatherId = forecastC4.id 0 := by
  exact ⟨by with_unfolding_all decide, by with_unfolding_all decide, rfl⟩

/-- Claim C4 amended: for a valid snapshot, `CurrentConditions` is
dirty iff the temperature differs AT ALL (absolute difference strictly
positive, i.e. exact inequality -- there is no 0.5 tolerance here) or
the condition code differs exactly. -/
theorem hasWeatherChanged_iff (pv : PreviousValues) (f : OWForecast)
    (hv : isForecastDataValid (some f) = true) :
    hasWeatherChanged pv (some f) = true ↔
      0 < |pv.temp - f.temp 0| ∨ pv.weatherId ≠ f.id 0 := by
  unfold hasWeatherChanged
  rw [hv]
  simp [abs_pos, sub_ne_zero]

/-- Claim C4 amended witness: the characterization evaluated at the
counterexample snapshot (dirty because 20 differs from 20.3 at all). -/
theorem hasWeatherChanged_iff_witness :
    hasWeatherChanged prevValsC4 (some forecastC4) = true :=
  (hasWeatherChanged_iff prevValsC4 forecastC4 (by with_unfolding_all decide)).mpr
    (Or.inl (by with_unfolding_all decide))

/-! ## Claim C5 -/

def uvDataC5a : UVData :=
  { current_uv := 5, max_uv := 83/10, max_uv_time := 0, valid := true,
    lastUpdate := 0, max_time_str := "13:00" }

def uvDataC5b : UVData :=
  { current_uv := 5, max_uv := 167/20, max_uv_time := 0, valid := true,
    lastUpdate := 0, max_time_str := "13:00" }

def prevValsC5 : PreviousValues :=
  { initPreviousValues with lastUV := 83/10, lastUVTime := "13:00" }

/-- Claim C5: (1) an invalid UV snapshot is never reported dirty;
(2) a valid one is dirty iff the daily max moved by more than 0.1 or
the localized max-time string changed; (3) the loop redraws the UV line
whenever the validity flag flipped, even if `hasUVChanged` is false;
(4) the 8.3 -> 8.35 fetch with an unchanged "13:00" label is clean. -/
theorem hasUVChanged_spec :
    (∀ pv uv, uv.valid = false → hasUVChanged pv uv = false) ∧
    (∀ pv uv, uv.valid = true →
      (hasUVChanged pv uv = true ↔
        |pv.lastUV - uv.max_uv| > 1/10 ∨ pv.lastUVTime ≠ uv.max_time_str)) ∧
    (∀ (firstRun : Bool) pv prevValid uv, prevValid ≠ uv.valid →
      uvLoopRedraw firstRun pv prevValid uv = true) ∧
    hasUVChanged prevValsC5 uvDataC5b = false := by
  refine ⟨?_, ?_, ?_, ?_⟩
  · intro pv uv hval
    simp [hasUVChanged, hval]
  · intro pv uv hval
    simp [hasUVChanged, hval]
  · intro firstRun pv prevValid uv hne
    simp [uvLoopRedraw, hne]
  · with_unfolding_all decide

/-- Claim C5 witness: the three quantified parts applied at concrete
inputs (an invalid fetch stays clean; a 0.2 jump on a valid fetch is
dirty; a validity flip forces the redraw). -/
theorem hasUVChanged_spec_witness :
    hasUVChanged prevValsC5
        { uvDataC5a with valid := false } = false ∧
      hasUVChanged prevValsC5
        { uvDataC5a with max_uv := 17/2 } = true ∧
      uvLoopRedraw false prevValsC5 false uvDataC5a = true :=
  ⟨hasUVChanged_spec.1 prevValsC5 { uvDataC5a with valid := false } rfl,
    (hasUVChanged_spec.2.1 prevValsC5 { uvDataC5a with max_uv := 17/2 } rfl).mpr
      (Or.inl (by with_unfolding_all decide)),
    hasUVChanged_spec.2.2.1 false prevValsC5 false uvDataC5a (by decide)⟩

/-! ## The `updateData()` cycle (lines 605-695)

`updateData()` frees the previous `forecast` snapshot, allocates a
fresh one, runs the fetch+parse collaborator on it, and only when
`parsed && isForecastDataValid()` holds does it redraw and commit; the
sections run in source order, each mutating `prevVals` in place.  The
model threads the `prevVals` record through explicit commit stages and
reports which draw calls were issued. -/

/-- Which draw calls a cycle issued.  `forecastSection` covers
`drawForecast()`, which always also draws the precipitation graph
(`drawHourlyPopGraph`, line 832). -/
structure DrawFlags where
  time : Bool := false
  currentWeather : Bool := false
  uvLine : Bool := false
  forecastSection : Bool := false
  astronomy : Bool := false
  tempGraph : Bool := false

def noDraws : DrawFlags := {}

/-- The persistent state `updateData()` reads and writes: the
`prevVals` store, the `firstRun` flag, and the global `forecast`
pointer's contents. -/
structure WSState where
  prevVals : PreviousValues
  firstRun : Bool
  stored : Option OWForecast

/-- The per-cycle inputs produced by external collaborators: the fetch
result flag, the data the parser left in the freshly allocated
snapshot, the current `uvData`, the `moon_phase` icon for the
snapshot's local time, and the formatted clock strings of `drawTime`. -/
structure CycleInput where
  parsed : Bool
  fetched : OWForecast
  uv : UVData
  icon : ℕ
  timeStr : String
  dateStr : String

/-- Initial state after `initPreviousValues()` in `setup()`:
sentinels committed, `firstRun = true`, no snapshot allocated yet. -/
def initState : WSState :=
  { prevVals := initPreviousValues, firstRun := true, stored := none }

/-- The redraw condition of `drawTime()` (line 723). -/
def timeDirty (pv : PreviousValues) (c : CycleInput) : Bool :=
  decide (c.timeStr ≠ pv.lastTimeStr) || decide (c.dateStr ≠ pv.lastDateStr)

/-- The commit of `drawTime()` (lines 746-747), guarded by its redraw
condition. -/
def drawTimeCommit (pv : PreviousValues) (c : CycleInput) : PreviousValues :=
  if timeDirty pv c then
    { pv with lastTimeStr := c.timeStr, lastDateStr := c.dateStr }
  else pv

/-- The commit of the current-weather branch (lines 663-664). -/
def weatherCommit (pv : PreviousValues) (f : OWForecast) : PreviousValues :=
  { pv with temp := f.temp 0, weatherId := f.id 0 }

/-- The commit of `drawUVIndex()` (lines 396-399): only a valid UV
snapshot is committed. -/
def uvIndexCommit (pv : PreviousValues) (uv : UVData) : PreviousValues :=
  if uv.valid then
    { pv with lastUV := uv.max_uv, lastUVTime := uv.max_time_str }
  else pv

/-- The commits of `drawForecast()` (lines 804-836): per forecast
column the scanned day (min, max) and representative id, guarded by the
array bound, plus the 8 precipitation probabilities. -/
def commitForecastVals (pv : PreviousValues) (f : OWForecast) : PreviousValues :=
  let dayIndex := getNextDayIndex (some f)
  { pv with
    forecastTemps := fun i =>
      if i < 4 ∧ dayIndex + i * 8 + 4 < MAX_DAYS * 8 then
        ((scanMinMax f (dayIndex + i * 8)).2, (scanMinMax f (dayIndex + i * 8)).1)
      else pv.forecastTemps i
    forecastIds := fun i =>
      if i < 4 ∧ dayIndex + i * 8 + 4 < MAX_DAYS * 8 then
        f.id (dayIndex + i * 8 + 4)
      else pv.forecastIds i
    pop := fun i => if i < 8 then f.pop i else pv.pop i }

/-- The commits of `drawAstronomy()` (lines 970-984): the hourly graph
is redrawn (and its temperatures plus -- via the `drawUVIndex()` call at
line 1148 -- the UV line committed) only when `hasHourlyTempChanged()`
held; the astronomy fields are always committed. -/
def commitAstronomyVals (pv : PreviousValues) (f : OWForecast) (uv : UVData)
    (icon : ℕ) (hourlyChanged : Bool) : PreviousValues :=
  let pvGraph :=
    if hourlyChanged then
      uvIndexCommit
        { pv with hourlyTemps := fun i => if i < 9 then f.temp i else pv.hourlyTemps i }
        uv
    else pv
  { pvGraph with
    windSpeed := f.wind_speed 0
    windDeg := f.wind_deg 0
    clouds := f.clouds_all 0
    humidity := f.humidity 0
    sunrise := f.sunrise
    sunset := f.sunset
    moonPhaseIcon := icon }

/-- The success branch of `updateData()` (lines 634-691), with the
section order and per-section guards of the source. -/
def updateDataSuccess (s : WSState) (c : CycleInput) : WSState × DrawFlags :=
  let f := c.fetched
  let ofc : Option OWForecast := some f
  let pvT := drawTimeCommit s.prevVals c
  let weatherB := s.firstRun || hasWeatherChanged pvT ofc
  let pvW := if weatherB then weatherCommit pvT f else pvT
  let pvU := if s.firstRun then uvIndexCommit pvW c.uv else pvW
  let forecastB := s.firstRun || hasForecastChanged pvU ofc || hasPopChanged pvU ofc
  let pvF := if forecastB then commitForecastVals pvU f else pvU
  let astroB := s.firstRun || hasAstronomyChanged pvF ofc c.icon
  let hourlyB := hasHourlyTempChanged pvF ofc
  let pvA := if astroB then commitAstronomyVals pvF f c.uv c.icon hourlyB else pvF
  ({ prevVals := pvA, firstRun := false, stored := ofc },
   { time := timeDirty s.prevVals c
     currentWeather := weatherB
     uvLine := s.firstRun || (astroB && hourlyB)
     forecastSection := forecastB
     astronomy := astroB
     tempGraph := astroB && hourlyB })

/-- One `updateData()` cycle.  The old snapshot is freed and the global
pointer re-bound to the freshly allocated, freshly parsed snapshot
BEFORE the success test (lines 610-621), so `stored` is replaced even
on a failed fetch; only the success branch draws or commits. -/
def updateData (s : WSState) (c : CycleInput) : WSState × DrawFlags :=
  let stored' : Option OWForecast := some c.fetched
  if c.parsed && isForecastDataValid stored' then updateDataSuccess s c
  else ({ s with stored := stored' }, noDraws)

/-! Projection facts for the commit stages: which `prevVals` fields each
stage leaves untouched. -/

theorem drawTimeCommit_hourlyTemps (pv : PreviousValues) (c : CycleInput) :
    (drawTimeCommit pv c).hourlyTemps = pv.hourlyTemps := by
  unfold drawTimeCommit; split <;> rfl

theorem drawTimeCommit_temp (pv : PreviousValues) (c : CycleInput) :
    (drawTimeCommit pv c).temp = pv.temp := by
  unfold drawTimeCommit; split <;> rfl

theorem uvIndexCommit_hourlyTemps (pv : PreviousValues) (uv : UVData) :
    (uvIndexCommit pv uv).hourlyTemps = pv.hourlyTemps := by
  unfold uvIndexCommit; split <;> rfl

theorem uvIndexCommit_temp (pv : PreviousValues) (uv : UVData) :
    (uvIndexCommit pv uv).temp = pv.temp := by
  unfold uvIndexCommit; split <;> rfl

theorem weatherCommit_hourlyTemps (pv : PreviousValues) (f : OWForecast) :
    (weatherCommit pv f).hourlyTemps = pv.hourlyTemps := rfl

theorem commitForecastVals_hourlyTemps (pv : PreviousValues) (f : OWForecast) :
    (commitForecastVals pv f).hourlyTemps = pv.hourlyTemps := rfl

theorem commitForecastVals_temp (pv : PreviousValues) (f : OWForecast) :
    (commitForecastVals pv f).temp = pv.temp := rfl

theorem commitAstronomyVals_temp (pv : PreviousValues) (f : OWForecast)
    (uv : UVData) (icon : ℕ) (b : Bool) :
    (commitAstronomyVals pv f uv icon b).temp = pv.temp := by
  unfold commitAstronomyVals
  split
  · exact uvIndexCommit_temp _ _
  · rfl

/-- `hasHourlyTempChanged` reads only the committed hourly series. -/
theorem hasHourlyTempChanged_congr (pv pv' : PreviousValues)
    (ofc : Option OWForecast) (h : pv.hourlyTemps = pv'.hourlyTemps) :
    hasHourlyTempChanged pv ofc = hasHourlyTempChanged pv' ofc := by
  unfold hasHourlyTempChanged
  cases ofc with
  | none => rfl
  | some f => rw [h]

/-! ## Claim C2 -/

/-- A first-cycle snapshot all of whose hourly temperatures (0.3
degrees) lie within the 0.5 tolerance of the zeroed sentinel series. -/
def forecastC2 : OWForecast :=
  { temp := fun _ => 3/10
    temp_min := fun _ => 0
    temp_max := fun _ => 0
    id := fun _ => 800
    pop := fun _ => 0
    wind_speed := fun _ => 0
    wind_deg := fun _ => 0
    clouds_all := fun _ => 0
    humidity := fun _ => 0
    sunrise := 0
    sunset := 0
    dt := fun _ => 0
    dt_txt := fun _ => "" }

def cycleC2 : CycleInput :=
  { parsed := true
    fetched := forecastC2
    uv := { current_uv := 0, max_uv := 0, max_uv_time := 0, valid := false,
            lastUpdate := 0, max_time_str := "" }
    icon := 0
    timeStr := "12:00"
    dateStr := "Updated: Jan 1 12:00" }

/-- Claim C2 counterexample: on the very first successful cycle (state
fresh from `initPreviousValues`, `firstRun = true`), with every fetched
hourly temperature within 0.5 of its zero sentinel, the hourly
temperature graph is NOT drawn (its guard at line 970 is
`hasHourlyTempChanged()` alone, not forced by `firstRun`), while all
other sections are -- contradicting the claim that first run redraws
every section. -/
theorem firstRun_skips_temp_graph :
    (updateData initState cycleC2).2.tempGraph = false ∧
      (updateData initState cycleC2).2.astronomy = true ∧
      ((List.range 9).all fun i =>
        decide (|initPreviousValues.hourlyTemps i - forecastC2.temp i| ≤ 1/2)) = true := by
  refine ⟨?_, ?_, by with_unfolding_all decide⟩ <;> with_unfolding_all decide

/-- Claim C2 amended: a first successful cycle unconditionally draws
the current weather, the UV line, the forecast plus precipitation
graph, and the astronomy block; the hourly temperature graph, however,
is drawn iff `hasHourlyTempChanged` holds against the committed
(sentinel) series -- `firstRun` does not force it. -/
theorem updateData_firstRun (pv : PreviousValues) (st : Option OWForecast)
    (c : CycleInput) (hp : c.parsed = true)
    (hv : isForecastDataValid (some c.fetched) = true) :
    (updateData ⟨pv, true, st⟩ c).2.currentWeather = true ∧
    (updateData ⟨pv, true, st⟩ c).2.uvLine = true ∧
    (updateData ⟨pv, true, st⟩ c).2.forecastSection = true ∧
    (updateData ⟨pv, true, st⟩ c).2.astronomy = true ∧
    (updateData ⟨pv, true, st⟩ c).2.tempGraph =
      hasHourlyTempChanged pv (some c.fetched) := by
  have hguard : (c.parsed && isForecastDataValid (some c.fetched)) = true := by
    rw [hp, hv]; rfl
  have hunfold : updateData ⟨pv, true, st⟩ c = updateDataSuccess ⟨pv, true, st⟩ c := by
    unfold updateData
    simp only [hguard, if_true]
  rw [hunfold]
  unfold updateDataSuccess
  simp only [Bool.true_or, if_true, Bool.true_and]
  refine ⟨by trivial, by trivial, by trivial, by trivial, ?_⟩
  apply hasHourlyTempChanged_congr
  rw [commitForecastVals_hourlyTemps, uvIndexCommit_hourlyTemps,
    weatherCommit_hourlyTemps, drawTimeCommit_hourlyTemps]

/-- Claim C2 amended witness: the amended statement at the concrete
first cycle (where the graph guard indeed evaluates to false). -/
theorem updateData_firstRun_witness :
    (updateData ⟨initPreviousValues, true, none⟩ cycleC2).2.currentWeather = true ∧
      (updateData ⟨initPreviousValues, true, none⟩ cycleC2).2.tempGraph =
        hasHourlyTempChanged initPreviousValues (some cycleC2.fetched) :=
  ⟨(updateData_firstRun initPreviousValues none cycleC2 rfl
      (by with_unfolding_all decide)).1,
    (updateData_firstRun initPreviousValues none cycleC2 rfl
      (by with_unfolding_all decide)).2.2.2.2⟩

/-! ## Claim C3 -/

/-- Every `updateData()` cycle re-binds the global snapshot pointer to
the freshly allocated, freshly parsed snapshot, success or not (lines
610-621). -/
theorem updateData_stored (s : WSState) (c : CycleInput) :
    (updateData s c).1.stored = some c.fetched := by
  simp only [updateData, updateDataSuccess]
  split <;> rfl

/-- A cycle whose guard `parsed && isForecastDataValid()` fails only
replaces the stored snapshot: nothing is drawn and nothing committed. -/
theorem updateData_failure (s : WSState) (c : CycleInput)
    (h : (c.parsed && isForecastDataValid (some c.fetched)) = false) :
    updateData s c = ({ s with stored := some c.fetched }, noDraws) := by
  unfold updateData
  simp [h]

/-- On a first-run success the committed current temperature is the
fetched one. -/
theorem updateData_success_firstRun_temp (s : WSState) (c : CycleInput)
    (hfr : s.firstRun = true) (hp : c.parsed = true)
    (hv : isForecastDataValid (some c.fetched) = true) :
    (updateData s c).1.prevVals.temp = c.fetched.temp 0 := by
  have hguard : (c.parsed && isForecastDataValid (some c.fetched)) = true := by
    rw [hp, hv]; rfl
  unfold updateData
  simp only [hguard, if_true]
  unfold updateDataSuccess
  simp only [hfr, Bool.true_or, if_true]
  rw [commitAstronomyVals_temp, commitForecastVals_temp, uvIndexCommit_temp]
  rfl

/-- A plausible snapshot temperature can never equal the -9999
sentinel. -/
theorem valid_temp_ne_sentinel (f : OWForecast)
    (hv : isForecastDataValid (some f) = true) : f.temp 0 ≠ -9999 := by
  unfold isForecastDataValid at hv
  simp only [Bool.and_eq_true, decide_eq_true_eq] at hv
  intro h
  rw [h] at hv
  exact absurd hv.1 (by norm_num)

def forecastC3good : OWForecast :=
  { temp := fun _ => 5
    temp_min := fun _ => 0
    temp_max := fun _ => 0
    id := fun _ => 800
    pop := fun _ => 0
    wind_speed := fun _ => 0
    wind_deg := fun _ => 0
    clouds_all := fun _ => 0
    humidity := fun _ => 0
    sunrise := 0
    sunset := 0
    dt := fun _ => 0
    dt_txt := fun _ => "" }

def forecastC3bad : OWForecast :=
  { forecastC3good with temp := fun _ => 77 }

def uvInvalidC3 : UVData :=
  { current_uv := 0, max_uv := 0, max_uv_time := 0, valid := false,
    lastUpdate := 0, max_time_str := "" }

def cycleC3good : CycleInput :=
  { parsed := true, fetched := forecastC3good, uv := uvInvalidC3,
    icon := 0, timeStr := "10:00", dateStr := "Updated: Jan 1 10:00" }

/-- A failed fetch attempt: `getForecast` returned `false`; the freshly
allocated snapshot holds whatever the aborted parse left behind. -/
def cycleC3bad : CycleInput :=
  { parsed := false, fetched := forecastC3bad, uv := uvInvalidC3,
    icon := 0, timeStr := "10:15", dateStr := "Updated: Jan 1 10:15" }

/-- Claim C3 counterexample: the claim says a failed fetch leaves the
previous snapshot untouched, but `updateData()` frees the previous
snapshot and re-binds the global pointer to the fresh allocation before
the fetch even runs: after a successful cycle stored the good snapshot,
a failed cycle replaces it with the aborted parse's contents. -/
theorem failed_cycle_replaces_snapshot :
    (updateData (updateData initState cycleC3good).1 cycleC3bad).1.stored =
        some forecastC3bad ∧
      (updateData initState cycleC3good).1.stored = some forecastC3good ∧
      cycleC3bad.parsed = false ∧
      (updateData (updateData initState cycleC3good).1 cycleC3bad).1.stored ≠
        (updateData initState cycleC3good).1.stored := by
  have h1 := updateData_stored (updateData initState cycleC3good).1 cycleC3bad
  have h2 := updateData_stored initState cycleC3good
  refine ⟨h1, h2, rfl, ?_⟩
  rw [h1, h2]
  intro h
  have hf : forecastC3bad = forecastC3good := by
    injection h
  have ht := congrArg (fun f => f.temp 0) hf
  simp only [forecastC3bad, forecastC3good] at ht
  exact absurd ht (by norm_num)

/-- Claim C3 amended: a failed fetch attempt does replace the in-memory
snapshot (the old one is freed and the pointer re-bound), but it leaves
`prevVals` (the committed RenderedState) and `firstRun` untouched and
draws nothing; over two failed cycles followed by a successful one
starting from the initial state, the RenderedState is unchanged by the
two failures and changes exactly once, on the success (its committed
temperature becomes the fetched one, which can never equal the
sentinel). -/
theorem updateData_failure_semantics :
    (∀ (s : WSState) (c : CycleInput),
      ¬(c.parsed = true ∧ isForecastDataValid (some c.fetched) = true) →
      (updateData s c).1.prevVals = s.prevVals ∧
      (updateData s c).1.firstRun = s.firstRun ∧
      (updateData s c).2 = noDraws ∧
      (updateData s c).1.stored = some c.fetched) ∧
    (∀ c1 c2 c3 : CycleInput,
      ¬(c1.parsed = true ∧ isForecastDataValid (some c1.fetched) = true) →
      ¬(c2.parsed = true ∧ isForecastDataValid (some c2.fetched) = true) →
      c3.parsed = true → isForecastDataValid (some c3.fetched) = true →
      (updateData initState c1).1.prevVals = initPreviousValues ∧
      (updateData (updateData initState c1).1 c2).1.prevVals =
        initPreviousValues ∧
      (updateData (updateData (updateData initState c1).1 c2).1 c3).1.prevVals.temp =
        c3.fetched.temp 0 ∧
      (updateData (updateData (updateData initState c1).1 c2).1 c3).1.prevVals.temp ≠
        initPreviousValues.temp) := by
  have hfail : ∀ (s : WSState) (c : CycleInput),
      ¬(c.parsed = true ∧ isForecastDataValid (some c.fetched) = true) →
      updateData s c = ({ s with stored := some c.fetched }, noDraws) := by
    intro s c hne
    apply updateData_failure
    cases hp : c.parsed <;> cases hv : isForecastDataValid (some c.fetched) <;>
      simp_all
  constructor
  · intro s c hne
    rw [hfail s c hne]
    exact ⟨rfl, rfl, rfl, rfl⟩
  · intro c1 c2 c3 h1 h2 hp3 hv3
    have e1 : updateData initState c1 =
        ({ initState with stored := some c1.fetched }, noDraws) := hfail _ _ h1
    have e2 : updateData (updateData initState c1).1 c2 =
        ({ (updateData initState c1).1 with stored := some c2.fetched }, noDraws) :=
      hfail _ _ h2
    refine ⟨by rw [e1]; rfl, by rw [e2, e1]; rfl, ?_, ?_⟩
    · have hfr : (updateData (updateData initState c1).1 c2).1.firstRun = true := by
        rw [e2, e1]; rfl
      exact updateData_success_firstRun_temp _ c3 hfr hp3 hv3
    · rw [updateData_success_firstRun_temp _ c3 (by rw [e2, e1]; rfl) hp3 hv3]
      exact valid_temp_ne_sentinel c3.fetched hv3

/-- Claim C3 amended witness: the amended statement run on the concrete
fail-fail-succeed cycle triple. -/
theorem updateData_failure_semantics_witness :
    (updateData initState cycleC3bad).1.prevVals = initPreviousValues ∧
      (updateData (updateData (updateData initState cycleC3bad).1 cycleC3bad).1
          cycleC3good).1.prevVals.temp = forecastC3good.temp 0 ∧
      (updateData (updateData (updateData initState cycleC3bad).1 cycleC3bad).1
          cycleC3good).1.prevVals.temp ≠ initPreviousValues.temp :=
  ⟨(updateData_failure_semantics.2 cycleC3bad cycleC3bad cycleC3good
      (by simp [cycleC3bad]) (by simp [cycleC3bad]) rfl
      (by with_unfolding_all decide)).1,
    (updateData_failure_semantics.2 cycleC3bad cycleC3bad cycleC3good
      (by simp [cycleC3bad]) (by simp [cycleC3bad]) rfl
      (by with_unfolding_all decide)).2.2.1,
    (updateData_failure_semantics.2 cycleC3bad cycleC3bad cycleC3good
      (by simp [cycleC3bad]) (by simp [cycleC3bad]) rfl
      (by with_unfolding_all decide)).2.2.2⟩

/-! ## Claim C7: symmetry of the change detector -/

/-- `decide` of a disequality is symmetric in its operands. -/
theorem decide_ne_symm {α : Type} [DecidableEq α] (a b : α) :
    decide (a ≠ b) = decide (b ≠ a) :=
  decide_eq_decide.mpr ne_comm

/-- `decide` of a tolerance comparison is symmetric in the compared
values. -/
theorem decide_absgt_symm (a b t : ℚ) :
    decide (|a - b| > t) = decide (|b - a| > t) :=
  decide_eq_decide.mpr (by rw [abs_sub_comm])

/-- `List.any` is pointwise congruent. -/
theorem list_any_congr {α : Type} (l : List α) (p q : α → Bool)
    (h : ∀ a ∈ l, p a = q a) : l.any p = l.any q := by
  induction l with
  | nil => rfl
  | cons a l ih =>
    simp only [List.any_cons, h a (List.mem_cons_self a l)]
    rw [ih (fun b hb => h b (List.mem_cons_of_mem a hb))]

/-- The snapshot used in the symmetry analysis: a plausible current
snapshot. -/
def forecastC7 : OWForecast :=
  { temp := fun _ => 20
    temp_min := fun _ => 10
    temp_max := fun _ => 25
    id := fun _ => 800
    pop := fun _ => 0
    wind_speed := fun _ => 3
    wind_deg := fun _ => 90
    clouds_all := fun _ => 10
    humidity := fun _ => 50
    sunrise := 100
    sunset := 200
    dt := fun _ => 0
    dt_txt := fun _ => "" }

/-- Exchange of the CurrentConditions comparison values: the committed
side takes the fetched temperature/code... -/
def weatherSwapPV (pv : PreviousValues) (f : OWForecast) : PreviousValues :=
  { pv with temp := f.temp 0, weatherId := f.id 0 }

/-- ...and the fetched side takes the committed ones. -/
def weatherSwapFC (pv : PreviousValues) (f : OWForecast) : OWForecast :=
  { f with
    temp := fun j => if j = 0 then pv.temp else f.temp j
    id := fun j => if j = 0 then pv.weatherId else f.id j }

/-- Claim C7 counterexample: swapping the stored and fetched
CurrentConditions values flips the verdict.  With the committed
temperature still at its -9999 sentinel and a plausible 20-degree
fetch, `hasWeatherChanged` answers dirty; after the swap the fetched
snapshot carries -9999, fails `isForecastDataValid`, and the predicate
answers clean. -/
theorem hasWeatherChanged_not_symmetric :
    hasWeatherChanged initPreviousValues (some forecastC7) = true ∧
      hasWeatherChanged (weatherSwapPV initPreviousValues forecastC7)
        (some (weatherSwapFC initPreviousValues forecastC7)) = false := by
  constructor <;> with_unfolding_all decide

/-- UV comparison-value exchange (the validity flag is a property of
the fetch attempt and stays put). -/
def uvSwapPV (pv : PreviousValues) (uv : UVData) : PreviousValues :=
  { pv with lastUV := uv.max_uv, lastUVTime := uv.max_time_str }

def uvSwapUV (pv : PreviousValues) (uv : UVData) : UVData :=
  { uv with max_uv := pv.lastUV, max_time_str := pv.lastUVTime }

def popSwapPV (pv : PreviousValues) (f : OWForecast) : PreviousValues :=
  { pv with pop := f.pop }

def popSwapFC (pv : PreviousValues) (f : OWForecast) : OWForecast :=
  { f with pop := pv.pop }

def hourlySwapPV (pv : PreviousValues) (f : OWForecast) : PreviousValues :=
  { pv with hourlyTemps := f.temp }

def hourlySwapFC (pv : PreviousValues) (f : OWForecast) : OWForecast :=
  { f with temp := pv.hourlyTemps }

def astroSwapPV (pv : PreviousValues) (f : OWForecast) (icon : ℕ) :
    PreviousValues :=
  { pv with
    windSpeed := f.wind_speed 0
    windDeg := f.wind_deg 0
    clouds := f.clouds_all 0
    humidity := f.humidity 0
    sunrise := f.sunrise
    sunset := f.sunset
    moonPhaseIcon := icon }

def astroSwapFC (pv : PreviousValues) (f : OWForecast) : OWForecast :=
  { f with
    wind_speed := fun j => if j = 0 then pv.windSpeed else f.wind_speed j
    wind_deg := fun j => if j = 0 then pv.windDeg else f.wind_deg j
    clouds_all := fun j => if j = 0 then pv.clouds else f.clouds_all j
    humidity := fun j => if j = 0 then pv.humidity else f.humidity j
    sunrise := pv.sunrise
    sunset := pv.sunset }

/-- Forecast-section exchange: the committed side takes the values the
scan derives from the snapshot... -/
def forecastSwapPV (pv : PreviousValues) (f : OWForecast) : PreviousValues :=
  let dayIndex := getNextDayIndex (some f)
  { pv with
    forecastTemps := fun i =>
      ((scanMinMax f (dayIndex + i * 8)).2, (scanMinMax f (dayIndex + i * 8)).1)
    forecastIds := fun i => f.id (dayIndex + i * 8 + 4) }

/-- ...and the snapshot's per-day sample windows are filled with the
committed values (constant over each window, so the scan re-derives
exactly them). -/
def forecastSwapFC (pv : PreviousValues) (f : OWForecast) : OWForecast :=
  let dayIndex := getNextDayIndex (some f)
  { f with
    temp_min := fun j => (pv.forecastTemps ((j - dayIndex) / 8)).1
    temp_max := fun j => (pv.forecastTemps ((j - dayIndex) / 8)).2
    id := fun j =>
      if dayIndex + 4 ≤ j ∧ (j - dayIndex) % 8 = 4 ∧ (j - dayIndex) / 8 < 4 then
        pv.forecastIds ((j - dayIndex) / 8)
      else f.id j }

/-- `getNextDayIndex` is an index into the first 9 samples. -/
theorem getNextDayIndex_le8 (ofc : Option OWForecast) :
    getNextDayIndex ofc ≤ 8 := by
  cases ofc with
  | none => simp [getNextDayIndex]
  | some f =>
    unfold getNextDayIndex
    cases hfind : (List.range 9).find?
        (fun index => substr8_10 (f.dt_txt index) != substr8_10 (f.dt_txt 0)) with
    | none => simp [hfind]
    | some i =>
      have hmem := List.mem_of_find?_eq_some hfind
      rw [List.mem_range] at hmem
      simp only [hfind]
      omega

/-- `takeWhile` keeps all of `range 8` when the bound test holds on all
8 indices. -/
theorem takeWhile_range8 (P : ℕ → Bool) (h : ∀ j, j < 8 → P j = true) :
    (List.range 8).takeWhile P = List.range 8 := by
  have h0 := h 0 (by omega)
  have h1 := h 1 (by omega)
  have h2 := h 2 (by omega)
  have h3 := h 3 (by omega)
  have h4 := h 4 (by omega)
  have h5 := h 5 (by omega)
  have h6 := h 6 (by omega)
  have h7 := h 7 (by omega)
  simp only [show List.range 8 = [0, 1, 2, 3, 4, 5, 6, 7] from rfl,
    List.takeWhile_cons, h0, h1, h2, h3, h4, h5, h6, h7, List.takeWhile_nil,
    if_true]

/-- The scan over a window whose samples are constant re-derives the
constants (the -9999/9999 fold seeds are absorbed). -/
theorem scanMinMax_const (f : OWForecast) (idx : ℕ) (M m : ℚ)
    (hb : idx + 7 < 40)
    (hM : ∀ j, j < 8 → f.temp_max (idx + j) = M)
    (hm : ∀ j, j < 8 → f.temp_min (idx + j) = m)
    (hMb : -9999 ≤ M) (hmb : m ≤ 9999) :
    scanMinMax f idx = (M, m) := by
  unfold scanMinMax
  rw [takeWhile_range8 _ (fun j hj => by
    simp only [decide_eq_true_eq]
    show idx + j < MAX_DAYS * 8
    unfold MAX_DAYS
    omega)]
  simp only [show List.range 8 = [0, 1, 2, 3, 4, 5, 6, 7] from rfl, List.foldl]
  rw [hM 0 (by omega), hM 1 (by omega), hM 2 (by omega), hM 3 (by omega),
    hM 4 (by omega), hM 5 (by omega), hM 6 (by omega), hM 7 (by omega),
    hm 0 (by omega), hm 1 (by omega), hm 2 (by omega), hm 3 (by omega),
    hm 4 (by omega), hm 5 (by omega), hm 6 (by omega), hm 7 (by omega)]
  rw [max_eq_right hMb, min_eq_right hmb]
  simp [max_self, min_self]

/-- Reduction of the validity guard once the flag is rewritten to a
literal. -/
theorem if_not_true {α : Type} (x y : α) : (if (!true) = true then x else y) = y :=
  rfl

theorem hasWeatherChanged_swap (pv : PreviousValues) (f : OWForecast)
    (hv : isForecastDataValid (some f) = true)
    (hvW : isForecastDataValid (some (weatherSwapFC pv f)) = true) :
    hasWeatherChanged pv (some f) =
      hasWeatherChanged (weatherSwapPV pv f) (some (weatherSwapFC pv f)) := by
  simp only [hasWeatherChanged]
  rw [hv, hvW, if_not_true, if_not_true]
  simp only [weatherSwapPV, weatherSwapFC, if_pos rfl, if_true]
  rw [decide_ne_symm pv.temp (f.temp 0), decide_ne_symm pv.weatherId (f.id 0)]

theorem hasUVChanged_swap (pv : PreviousValues) (uv : UVData) :
    hasUVChanged pv uv = hasUVChanged (uvSwapPV pv uv) (uvSwapUV pv uv) := by
  unfold hasUVChanged uvSwapPV uvSwapUV
  cases huv : uv.valid with
  | false => simp [huv]
  | true =>
    simp only [huv, Bool.not_true, Bool.false_eq_true, if_false]
    rw [decide_absgt_symm pv.lastUV uv.max_uv,
      decide_ne_symm pv.lastUVTime uv.max_time_str]

theorem hasPopChanged_swap (pv : PreviousValues) (f : OWForecast) :
    hasPopChanged pv (some f) =
      hasPopChanged (popSwapPV pv f) (some (popSwapFC pv f)) := by
  have hval : isForecastDataValid (some (popSwapFC pv f)) =
      isForecastDataValid (some f) := rfl
  simp only [hasPopChanged, hval]
  cases hv : isForecastDataValid (some f) with
  | false => rfl
  | true =>
    rw [if_not_true, if_not_true]
    apply list_any_congr
    intro i _
    simp only [popSwapPV, popSwapFC]
    exact decide_absgt_symm (pv.pop i) (f.pop i) (1/100)

theorem hasHourlyTempChanged_swap (pv : PreviousValues) (f : OWForecast)
    (hv : isForecastDataValid (some f) = true)
    (hvH : isForecastDataValid (some (hourlySwapFC pv f)) = true) :
    hasHourlyTempChanged pv (some f) =
      hasHourlyTempChanged (hourlySwapPV pv f) (some (hourlySwapFC pv f)) := by
  simp only [hasHourlyTempChanged]
  rw [hv, hvH, if_not_true, if_not_true]
  apply list_any_congr
  intro i _
  simp only [hourlySwapPV, hourlySwapFC]
  exact decide_absgt_symm (pv.hourlyTemps i) (f.temp i) (1/2)

theorem hasAstronomyChanged_swap (pv : PreviousValues) (f : OWForecast)
    (icon : ℕ) :
    hasAstronomyChanged pv (some f) icon =
      hasAstronomyChanged (astroSwapPV pv f icon) (some (astroSwapFC pv f))
        pv.moonPhaseIcon := by
  have hval : isForecastDataValid (some (astroSwapFC pv f)) =
      isForecastDataValid (some f) := rfl
  simp only [hasAstronomyChanged, hval]
  cases hv : isForecastDataValid (some f) with
  | false => rfl
  | true =>
    rw [if_not_true, if_not_true]
    simp only [astroSwapPV, astroSwapFC, if_pos rfl, if_true]
    rw [decide_absgt_symm pv.windSpeed (f.wind_speed 0),
      decide_ne_symm pv.windDeg (f.wind_deg 0),
      decide_ne_symm pv.clouds (f.clouds_all 0),
      decide_ne_symm pv.humidity (f.humidity 0),
      decide_ne_symm pv.sunrise f.sunrise,
      decide_ne_symm pv.sunset f.sunset,
      decide_ne_symm pv.moonPhaseIcon icon]

theorem forecastSwapPV_temps (pv : PreviousValues) (f : OWForecast) (i : ℕ) :
    (forecastSwapPV pv f).forecastTemps i =
      ((scanMinMax f (getNextDayIndex (some f) + i * 8)).2,
        (scanMinMax f (getNextDayIndex (some f) + i * 8)).1) := rfl

theorem forecastSwapPV_ids (pv : PreviousValues) (f : OWForecast) (i : ℕ) :
    (forecastSwapPV pv f).forecastIds i =
      f.id (getNextDayIndex (some f) + i * 8 + 4) := rfl

theorem forecastSwapFC_id (pv : PreviousValues) (f : OWForecast) (i : ℕ)
    (hi : i < 4) :
    (forecastSwapFC pv f).id (getNextDayIndex (some f) + i * 8 + 4) =
      pv.forecastIds i := by
  simp only [forecastSwapFC]
  rw [if_pos ⟨by omega, by omega, by omega⟩]
  congr 1
  omega

theorem forecastSwapFC_scan (pv : PreviousValues) (f : OWForecast) (i : ℕ)
    (hi : i < 4) (hd : getNextDayIndex (some f) ≤ 8)
    (hMb : -9999 ≤ (pv.forecastTemps i).2) (hmb : (pv.forecastTemps i).1 ≤ 9999) :
    scanMinMax (forecastSwapFC pv f) (getNextDayIndex (some f) + i * 8) =
      ((pv.forecastTemps i).2, (pv.forecastTemps i).1) := by
  apply scanMinMax_const
  · omega
  · intro j hj
    simp only [forecastSwapFC]
    have hdiv : (getNextDayIndex (some f) + i * 8 + j - getNextDayIndex (some f)) / 8 = i := by
      omega
    rw [hdiv]
  · intro j hj
    simp only [forecastSwapFC]
    have hdiv : (getNextDayIndex (some f) + i * 8 + j - getNextDayIndex (some f)) / 8 = i := by
      omega
    rw [hdiv]
  · exact hMb
  · exact hmb

theorem hasForecastChanged_swap (pv : PreviousValues) (f : OWForecast)
    (hv : isForecastDataValid (some f) = true)
    (hFb : ∀ i, i < 4 →
      -9999 ≤ (pv.forecastTemps i).2 ∧ (pv.forecastTemps i).1 ≤ 9999) :
    hasForecastChanged pv (some f) =
      hasForecastChanged (forecastSwapPV pv f) (some (forecastSwapFC pv f)) := by
  have hval : isForecastDataValid (some (forecastSwapFC pv f)) = true := hv
  have hday : getNextDayIndex (some (forecastSwapFC pv f)) =
      getNextDayIndex (some f) := rfl
  have hd8 := getNextDayIndex_le8 (some f)
  simp only [hasForecastChanged]
  rw [hv, hval, if_not_true, if_not_true, hday]
  apply list_any_congr
  intro i hi
  rw [List.mem_range] at hi
  dsimp only
  have h40 : ¬ (MAX_DAYS * 8 ≤ getNextDayIndex (some f) + i * 8) := by
    unfold MAX_DAYS
    omega
  rw [if_neg h40, if_neg h40,
    forecastSwapPV_temps, forecastSwapPV_ids, forecastSwapFC_id pv f i hi,
    forecastSwapFC_scan pv f i hi hd8 (hFb i hi).1 (hFb i hi).2]
  dsimp only
  rw [decide_absgt_symm ((pv.forecastTemps i).1)
      ((scanMinMax f (getNextDayIndex (some f) + i * 8)).2) (1/2),
    decide_absgt_symm ((pv.forecastTemps i).2)
      ((scanMinMax f (getNextDayIndex (some f) + i * 8)).1) (1/2),
    decide_ne_symm (pv.forecastIds i)
      (f.id (getNextDayIndex (some f) + i * 8 + 4))]

/-- Claim C7 amended: each per-section comparison of the change
detector is symmetric in the compared value pairs, so exchanging the
stored (last-rendered) values with the fetched values preserves every
verdict PROVIDED the exchange keeps the fetched snapshot plausible:
that proviso is automatic for the precipitation, astronomy and
forecast sections (their swaps do not touch `temp[0]`) and for the UV
section (whose validity flag belongs to the fetch attempt and stays
put), but must be assumed for the current-weather and hourly-graph
sections, whose swapped-in `temp[0]` feeds `isForecastDataValid`;
without it symmetry fails (see the counterexample). -/
theorem changeDetector_symm (pv : PreviousValues) (f : OWForecast)
    (uv : UVData) (icon : ℕ)
    (hv : isForecastDataValid (some f) = true)
    (hvW : isForecastDataValid (some (weatherSwapFC pv f)) = true)
    (hvH : isForecastDataValid (some (hourlySwapFC pv f)) = true)
    (hFb : ∀ i, i < 4 →
      -9999 ≤ (pv.forecastTemps i).2 ∧ (pv.forecastTemps i).1 ≤ 9999) :
    hasWeatherChanged pv (some f) =
      hasWeatherChanged (weatherSwapPV pv f) (some (weatherSwapFC pv f)) ∧
    hasUVChanged pv uv = hasUVChanged (uvSwapPV pv uv) (uvSwapUV pv uv) ∧
    hasPopChanged pv (some f) =
      hasPopChanged (popSwapPV pv f) (some (popSwapFC pv f)) ∧
    hasHourlyTempChanged pv (some f) =
      hasHourlyTempChanged (hourlySwapPV pv f) (some (hourlySwapFC pv f)) ∧
    hasAstronomyChanged pv (some f) icon =
      hasAstronomyChanged (astroSwapPV pv f icon) (some (astroSwapFC pv f))
        pv.moonPhaseIcon ∧
    hasForecastChanged pv (some f) =
      hasForecastChanged (forecastSwapPV pv f) (some (forecastSwapFC pv f)) :=
  ⟨hasWeatherChanged_swap pv f hv hvW,
    hasUVChanged_swap pv uv,
    hasPopChanged_swap pv f,
    hasHourlyTempChanged_swap pv f hv hvH,
    hasAstronomyChanged_swap pv f icon,
    hasForecastChanged_swap pv f hv hFb⟩

/-- A fully plausible committed store for the symmetry witness. -/
def prevValsC7 : PreviousValues :=
  { temp := 21
    weatherId := 801
    windSpeed := 2
    windDeg := 180
    clouds := 20
    humidity := 60
    sunrise := 111
    sunset := 222
    moonPhaseIcon := 3
    forecastTemps := fun _ => (12, 24)
    forecastIds := fun _ => 500
    pop := fun _ => 1/10
    hourlyTemps := fun _ => 15
    lastTimeStr := "09:00"
    lastDateStr := "Updated: Jan 1 09:00"
    lastUV := 4
    lastUVTime := "12:30" }

def uvDataC7 : UVData :=
  { current_uv := 3, max_uv := 6, max_uv_time := 0, valid := true,
    lastUpdate := 0, max_time_str := "13:10" }

/-- Claim C7 amended witness: the symmetry statement applied at a
concrete plausible store/snapshot pair (weather and forecast
conjuncts). -/
theorem changeDetector_symm_witness :
    hasWeatherChanged prevValsC7 (some forecastC7) =
      hasWeatherChanged (weatherSwapPV prevValsC7 forecastC7)
        (some (weatherSwapFC prevValsC7 forecastC7)) ∧
      hasForecastChanged prevValsC7 (some forecastC7) =
        hasForecastChanged (forecastSwapPV prevValsC7 forecastC7)
          (some (forecastSwapFC prevValsC7 forecastC7)) :=
  ⟨(changeDetector_symm prevValsC7 forecastC7 uvDataC7 3
      (by with_unfolding_all decide) (by with_unfolding_all decide)
      (by with_unfolding_all decide)
      (fun i _ => by
        have h : prevValsC7.forecastTemps i = ((12 : ℚ), (24 : ℚ)) := rfl
        rw [h]
        exact ⟨by with_unfolding_all decide, by with_unfolding_all decide⟩)).1,
    (changeDetector_symm prevValsC7 forecastC7 uvDataC7 3
      (by with_unfolding_all decide) (by with_unfolding_all decide)
      (by with_unfolding_all decide)
      (fun i _ => by
        have h : prevValsC7.forecastTemps i = ((12 : ℚ), (24 : ℚ)) := rfl
        rw [h]
        exact ⟨by with_unfolding_all decide, by with_unfolding_all decide⟩)).2.2.2.2.2⟩

/-! ## Claim C8: `splitIndex` (lines 1188-1197)

`splitIndex` repeatedly jumps past the next space (`indexOf(' ', index)`)
while `index <= halfLen`, then returns `index - 1` (the last space
consumed), or 0 if no space was consumed.  Arduino `String.indexOf(c, from)`
returns the first occurrence at or after `from`, or -1. -/

/-- First position holding a space, scanning a suffix whose first
element sits at absolute position `i`. -/
def findSpace : List Char → ℕ → Option ℕ
  | [], _ => none
  | c :: rest, i => if c = ' ' then some i else findSpace rest (i + 1)

/-- `text.indexOf(' ', start)`: first space at or after `start`
(`none` for -1). -/
def indexOfFrom (l : List Char) (start : ℕ) : Option ℕ :=
  findSpace (l.drop start) start

/-- The `while` loop of `splitIndex`, fuelled: `index` strictly
increases and is bounded by the string length, so `length + 1` units of
fuel always suffice (established by `splitLoop_spec`). -/
def splitLoop (l : List Char) (halfLen : ℕ) : ℕ → ℕ → ℕ
  | 0, index => index
  | fuel + 1, index =>
    match indexOfFrom l index with
    | some p => if index ≤ halfLen then splitLoop l halfLen fuel (p + 1) else index
    | none => index

/-- `splitIndex(text)` with `halfLen = length >> 1`. -/
def splitIndex (s : String) : ℕ :=
  let l := s.data
  let halfLen := l.length / 2
  let index := splitLoop l halfLen (l.length + 1) 0
  if 0 < index then index - 1 else 0

/-- Rightmost space of the processed prefix, with accumulator. -/
def lastSpaceAux : List Char → ℕ → Option ℕ → Option ℕ
  | [], _, acc => acc
  | c :: rest, i, acc => lastSpaceAux rest (i + 1) (if c = ' ' then some i else acc)

/-- Position of the last space of the string, if any. -/
def lastSpace (l : List Char) : Option ℕ := lastSpaceAux l 0 none

/-- The behaviour `splitIndex` actually implements, written out
directly: the first space at or after the midpoint if one exists,
otherwise the last space, otherwise 0. -/
def splitIndexSpec (s : String) : ℕ :=
  let l := s.data
  match indexOfFrom l (l.length / 2) with
  | some p => p
  | none => (lastSpace l).getD 0

/-- The behaviour the claim describes: the last space at or before the
midpoint `length/2`, or 0 if there is none. -/
def lastSpaceAtOrBeforeMid (s : String) : ℕ :=
  let l := s.data
  match lastSpace (l.take (l.length / 2 + 1)) with
  | some p => p
  | none => 0

/-- Claim C8 counterexample: for "ab cd ef" (length 8, midpoint 4,
spaces at 2 and 5) the claim's reading -- the last space at or before
the midpoint -- is 2, but `splitIndex` returns 5: after consuming the
space at 2 the loop index 3 is still at most 4, so the loop jumps past
the space at 5, beyond the midpoint. -/
theorem splitIndex_counterexample :
    splitIndex (String.mk ['a', 'b', ' ', 'c', 'd', ' ', 'e', 'f']) = 5 ∧
      lastSpaceAtOrBeforeMid (String.mk ['a', 'b', ' ', 'c', 'd', ' ', 'e', 'f']) = 2 ∧
      (5 : ℕ) ≠ 2 := by
  refine ⟨by decide, by decide, by decide⟩

theorem findSpace_some_iff (m : List Char) : ∀ (i p : ℕ),
    findSpace m i = some p ↔
      ∃ k, m.get? k = some ' ' ∧ p = i + k ∧ ∀ j, j < k → m.get? j ≠ some ' ' := by
  induction m with
  | nil =>
    intro i p
    simp [findSpace]
  | cons c rest ih =>
    intro i p
    by_cases hc : c = ' '
    · subst hc
      simp only [findSpace, if_pos rfl]
      constructor
      · intro h
        injection h with h
        exact ⟨0, rfl, by omega, fun j hj => absurd hj (by omega)⟩
      · rintro ⟨k, hk, hp, hmin⟩
        cases k with
        | zero => simp [hp]
        | succ k' =>
          exact absurd List.get?_cons_zero (hmin 0 (by omega))
    · simp only [findSpace, if_neg hc]
      rw [ih (i + 1) p]
      constructor
      · rintro ⟨k, hk, hp, hmin⟩
        refine ⟨k + 1, by simpa using hk, by omega, fun j hj => ?_⟩
        cases j with
        | zero =>
          rw [List.get?_cons_zero]
          intro h
          injection h with h
          exact hc h
        | succ j' =>
          rw [List.get?_cons_succ]
          exact hmin j' (by omega)
      · rintro ⟨k, hk, hp, hmin⟩
        cases k with
        | zero =>
          rw [List.get?_cons_zero] at hk
          injection hk with hk
          exact absurd hk hc
        | succ k' =>
          refine ⟨k', by simpa using hk, by omega, fun j hj => ?_⟩
          have := hmin (j + 1) (by omega)
          rwa [List.get?_cons_succ] at this

theorem findSpace_none_iff (m : List Char) : ∀ i : ℕ,
    findSpace m i = none ↔ ∀ k, m.get? k ≠ some ' ' := by
  induction m with
  | nil =>
    intro i
    simp [findSpace]
  | cons c rest ih =>
    intro i
    by_cases hc : c = ' '
    · subst hc
      simp only [findSpace, if_pos rfl]
      constructor
      · intro h
        exact Option.noConfusion h
      · intro h
        exact absurd List.get?_cons_zero (h 0)
    · simp only [findSpace, if_neg hc]
      rw [ih (i + 1)]
      constructor
      · intro h k
        cases k with
        | zero =>
          rw [List.get?_cons_zero]
          intro he
          injection he with he
          exact hc he
        | succ k' =>
          rw [List.get?_cons_succ]
          exact h k'
      · intro h k
        have := h (k + 1)
        rwa [List.get?_cons_succ] at this

theorem indexOfFrom_some_iff (l : List Char) (start p : ℕ) :
    indexOfFrom l start = some p ↔
      l.get? p = some ' ' ∧ start ≤ p ∧
        ∀ j, start ≤ j → j < p → l.get? j ≠ some ' ' := by
  unfold indexOfFrom
  rw [findSpace_some_iff]
  constructor
  · rintro ⟨k, hk, hp, hmin⟩
    rw [List.get?_drop] at hk
    subst hp
    refine ⟨hk, by omega, fun j hj1 hj2 => ?_⟩
    have hthis := hmin (j - start) (by omega)
    rw [List.get?_drop] at hthis
    have hj : start + (j - start) = j := by omega
    rwa [hj] at hthis
  · rintro ⟨hp, hsp, hmin⟩
    refine ⟨p - start, ?_, by omega, fun j hj => ?_⟩
    · rw [List.get?_drop]
      have h : start + (p - start) = p := by omega
      rwa [h]
    · rw [List.get?_drop]
      exact hmin (start + j) (by omega) (by omega)

theorem indexOfFrom_none_iff (l : List Char) (start : ℕ) :
    indexOfFrom l start = none ↔ ∀ j, start ≤ j → l.get? j ≠ some ' ' := by
  unfold indexOfFrom
  rw [findSpace_none_iff]
  constructor
  · intro h j hj
    have hthis := h (j - start)
    rw [List.get?_drop] at hthis
    have hj2 : start + (j - start) = j := by omega
    rwa [hj2] at hthis
  · intro h k
    rw [List.get?_drop]
    exact h (start + k) (by omega)

theorem lastSpaceAux_acc (m : List Char) : ∀ (i : ℕ) (acc : Option ℕ),
    (∀ c ∈ m, c ≠ ' ') → lastSpaceAux m i acc = acc := by
  induction m with
  | nil => intro i acc _; rfl
  | cons c rest ih =>
    intro i acc h
    simp only [lastSpaceAux, if_neg (h c (List.mem_cons_self c rest))]
    exact ih (i + 1) acc (fun c' hc' => h c' (List.mem_cons_of_mem c hc'))

theorem lastSpaceAux_last (m : List Char) : ∀ (i : ℕ) (acc : Option ℕ) (k : ℕ),
    m.get? k = some ' ' → (∀ j, k < j → m.get? j ≠ some ' ') →
    lastSpaceAux m i acc = some (i + k) := by
  induction m with
  | nil =>
    intro i acc k hk
    simp at hk
  | cons c rest ih =>
    intro i acc k hk hmax
    cases k with
    | zero =>
      rw [List.get?_cons_zero] at hk
      injection hk with hk
      have hrest : ∀ c' ∈ rest, c' ≠ ' ' := by
        intro c' hc' hce
        obtain ⟨n, hn⟩ := List.mem_iff_get?.mp hc'
        have hcontra := hmax (n + 1) (by omega)
        rw [List.get?_cons_succ, hn, hce] at hcontra
        exact hcontra rfl
      rw [show lastSpaceAux (c :: rest) i acc =
            lastSpaceAux rest (i + 1) (if c = ' ' then some i else acc) from rfl,
        if_pos hk, lastSpaceAux_acc rest (i + 1) (some i) hrest]
      simp
    | succ k' =>
      rw [List.get?_cons_succ] at hk
      have hmax' : ∀ j, k' < j → rest.get? j ≠ some ' ' := by
        intro j hj
        have := hmax (j + 1) (by omega)
        rwa [List.get?_cons_succ] at this
      simp only [lastSpaceAux]
      rw [ih (i + 1) _ k' hk hmax']
      congr 1
      omega

theorem lastSpace_eq (l : List Char) (p : ℕ) (hp : l.get? p = some ' ')
    (hmax : ∀ j, p < j → l.get? j ≠ some ' ') : lastSpace l = some p := by
  unfold lastSpace
  rw [lastSpaceAux_last l 0 none p hp hmax]
  simp

theorem lastSpace_none (l : List Char) (h : ∀ k, l.get? k ≠ some ' ') :
    lastSpace l = none := by
  unfold lastSpace
  apply lastSpaceAux_acc
  intro c hc
  obtain ⟨n, hn⟩ := List.mem_iff_get?.mp hc
  intro hce
  rw [hce] at hn
  exact h n hn

theorem splitLoop_gt (l : List Char) (half : ℕ) :
    ∀ (fuel index : ℕ), half < index → splitLoop l half fuel index = index := by
  intro fuel index h
  cases fuel with
  | zero => rfl
  | succ fuel =>
    simp only [splitLoop]
    cases hio : indexOfFrom l index with
    | some p =>
      dsimp only
      rw [if_neg (by omega)]
    | none => rfl

theorem splitLoop_spec (l : List Char) (half : ℕ) (hhalf : half ≤ l.length) :
    ∀ (fuel index : ℕ), index ≤ half → l.length + 1 - index ≤ fuel →
    splitLoop l half fuel index =
      match indexOfFrom l index with
      | none => index
      | some _ =>
        match indexOfFrom l half with
        | some q => q + 1
        | none => (lastSpace l).getD 0 + 1 := by
  intro fuel
  induction fuel with
  | zero =>
    intro index h1 h2
    omega
  | succ fuel ih =>
    intro index hidx hfuel
    simp only [splitLoop]
    cases hio : indexOfFrom l index with
    | none => rfl
    | some p =>
      dsimp only
      rw [if_pos hidx]
      obtain ⟨hpc, hple, hpmin⟩ := (indexOfFrom_some_iff l index p).mp hio
      have hplen : p < l.length := by
        by_contra hcon
        push_neg at hcon
        rw [List.get?_eq_none.mpr hcon] at hpc
        exact Option.noConfusion hpc
      by_cases hph : half ≤ p
      · have hq : indexOfFrom l half = some p := by
          rw [indexOfFrom_some_iff]
          exact ⟨hpc, hph, fun j hj1 hj2 => hpmin j (by omega) hj2⟩
        rw [splitLoop_gt l half fuel (p + 1) (by omega), hq]
      · push_neg at hph
        rw [ih (p + 1) (by omega) (by omega)]
        cases hio2 : indexOfFrom l (p + 1) with
        | some p2 => rfl
        | none =>
          have hnosp : ∀ j, p < j → l.get? j ≠ some ' ' := by
            intro j hj
            exact (indexOfFrom_none_iff l (p + 1)).mp hio2 j (by omega)
          have hnone : indexOfFrom l half = none := by
            rw [indexOfFrom_none_iff]
            intro j hj
            by_cases hjp : j ≤ p
            · intro hsp
              rcases Nat.lt_or_ge j p with hlt | hge
              · exact hpmin j (by omega) hlt hsp
              · have : j = p := by omega
                subst this
                omega
            · exact hnosp j (by omega)
          rw [hnone, lastSpace_eq l p hpc hnosp]
          rfl

/-- Claim C8 amended: `splitIndex` returns the position of the FIRST
space at or after the midpoint `length/2` when the string has one;
otherwise the position of the last space; and 0 when the string
contains no space at all.  (The claim's reading -- last space at or
before the midpoint -- is refuted by the counterexample.) -/
theorem splitIndex_eq_spec (s : String) : splitIndex s = splitIndexSpec s := by
  unfold splitIndex splitIndexSpec
  dsimp only
  have hhalf : s.data.length / 2 ≤ s.data.length := Nat.div_le_self _ _
  rw [splitLoop_spec s.data (s.data.length / 2) hhalf (s.data.length + 1) 0
    (by omega) (by omega)]
  cases hio : indexOfFrom s.data 0 with
  | none =>
    have hall : ∀ j, s.data.get? j ≠ some ' ' := by
      intro j
      exact (indexOfFrom_none_iff s.data 0).mp hio j (by omega)
    have hnone : indexOfFrom s.data (s.data.length / 2) = none := by
      rw [indexOfFrom_none_iff]
      intro j _
      exact hall j
    rw [hnone, lastSpace_none s.data hall]
    rfl
  | some p =>
    cases hq : indexOfFrom s.data (s.data.length / 2) with
    | some q => simp
    | none => simp

end WeatherStation
